import Mathlib

set_option maxRecDepth 100000

/-!
Verification of the structured-extraction contract of the PortfolioAI
repository (app.py, schema.py, db_interface.py, alert_sender.py,
document_assets.py).

The Python data layer is embedded shallowly:
* JSON payloads returned by the external generative call are the
  inductive `Json` (string, integer, array, object).
* The pydantic models `WorkExperience`, `ResumeProfile` and
  `OptimizationReport` become Lean structures, and pydantic's
  construction-time validation (`Model(**payload)`) becomes explicit
  `validate…` functions: a required field that is absent or of the wrong
  type makes the whole validation fail with `none`, exactly as pydantic
  raises `ValidationError`.  Note that the source declares every field of
  these three models with a bare `Field(description=...)`: no numeric
  bounds and no list-length bounds are declared, so none are checked here.
* The external generative call and its JSON decoding are modelled by an
  `Except String Json` argument (`Except.error` = the call raised or the
  response text failed to decode); the `try/except` blocks of app.py map
  that to `none`/`False` results.
* Python string methods used by the renderers are re-implemented on
  character lists (`pyUpper`, `pyStrip`, `pySplitNl`, `pyRemoveChar`)
  because the claims evaluate them on concrete data.
-/

/-- JSON values as produced by `json.loads` on the model response. -/
inductive Json where
  | str : String → Json
  | int : Int → Json
  | arr : List Json → Json
  | obj : List (String × Json) → Json

/-- Python `str.upper()` (ASCII case mapping suffices for the data here). -/
def pyUpper (s : String) : String := String.mk (s.data.map Char.toUpper)

/-- Python `str.strip()`: drop leading and trailing whitespace. -/
def pyStrip (s : String) : String :=
  String.mk (((s.data.dropWhile Char.isWhitespace).reverse.dropWhile Char.isWhitespace).reverse)

/-- Splitting a character list at every occurrence of `sep` (Python `str.split(sep)`). -/
def splitLinesCh (sep : Char) : List Char → List (List Char)
  | [] => [[]]
  | a :: t =>
    match splitLinesCh sep t, a == sep with
    | r, true => [] :: r
    | h :: t2, false => (a :: h) :: t2
    | [], false => [[a]]

/-- Python `s.split(chr)` for a one-character separator, as used with `'\n'`. -/
def pySplitNl (s : String) : List String := (splitLinesCh '\n' s.data).map String.mk

/-- Python `s.replace(c, '')` for a one-character pattern: remove every occurrence. -/
def pyRemoveChar (c : Char) (s : String) : String :=
  String.mk (s.data.filter (fun a => a != c))

/-- Boolean prefix test on character lists. -/
def isPrefixCh : List Char → List Char → Bool
  | [], _ => true
  | _ :: _, [] => false
  | a :: as, b :: bs => a == b && isPrefixCh as bs

/-- Boolean substring search on character lists. -/
def containsSubCh (needle : List Char) : List Char → Bool
  | [] => isPrefixCh needle []
  | c :: t => isPrefixCh needle (c :: t) || containsSubCh needle t

/-- Substring containment on strings: `strContains hay pat = true` iff `pat`
occurs contiguously in `hay`. -/
def strContains (hay pat : String) : Bool := containsSubCh pat.data hay.data

/-- Schema `WorkExperience` (schema.py lines 6-10 / app.py lines 25-29):
four required string fields, no further constraints declared. -/
structure WorkExperience where
  title : String
  company : String
  years : String
  summary : String

/-- Schema `ResumeProfile` (schema.py lines 12-17 / app.py lines 31-36):
five required fields; `skills` is `List[str]` with only a natural-language
description (the 8-12 range lives in the description text, not in a
validation constraint). -/
structure ResumeProfile where
  name : String
  email : String
  summary : String
  skills : List String
  experience : List WorkExperience

/-- Schema `OptimizationReport` (schema.py lines 19-22 / app.py lines 38-41):
`match_score` is declared `int = Field(description="A confidence score from
0 to 100...")` — the 0-100 range appears only in the description handed to
the extractor; no `ge`/`le` bound is declared. -/
structure OptimizationReport where
  match_score : Int
  keyword_gaps : List String
  suggestions : List String

/-- Pydantic `str` field validation: the value must be a JSON string. -/
def asStr : Json → Option String
  | .str s => some s
  | _ => none

/-- Pydantic `int` field validation: the value must be a JSON integer. -/
def asInt : Json → Option Int
  | .int n => some n
  | _ => none

/-- Element-wise validation of a JSON list: every element must validate,
otherwise the whole list (and hence the parent model) fails. -/
def validateList (f : Json → Option α) : List Json → Option (List α)
  | [] => some []
  | a :: t =>
    match f a, validateList f t with
    | some b, some bs => some (b :: bs)
    | _, _ => none

/-- Pydantic `List[str]` field validation. -/
def asStrList : Json → Option (List String)
  | .arr l => validateList asStr l
  | _ => none

/-- Validation performed by `WorkExperience(**payload)`: all four string
fields must be present with string values. -/
def validateWorkExperience (kvs : List (String × Json)) : Option WorkExperience :=
  match (List.lookup "title" kvs).bind asStr,
        (List.lookup "company" kvs).bind asStr,
        (List.lookup "years" kvs).bind asStr,
        (List.lookup "summary" kvs).bind asStr with
  | some t, some c, some y, some s => some ⟨t, c, y, s⟩
  | _, _, _, _ => none

/-- Nested-model element validation: an experience entry must be a JSON
object validating as a `WorkExperience`. -/
def asExp : Json → Option WorkExperience
  | .obj kvs => validateWorkExperience kvs
  | _ => none

/-- Pydantic `List[WorkExperience]` field validation. -/
def asExpList : Json → Option (List WorkExperience)
  | .arr l => validateList asExp l
  | _ => none

/-- Validation performed by `ResumeProfile(**payload)` (app.py line 159):
every one of the five fields is required (no default is declared), a missing
or ill-typed field fails the whole record, and no cardinality constraint is
imposed on `skills` or `experience`. -/
def validateResumeProfile (kvs : List (String × Json)) : Option ResumeProfile :=
  match (List.lookup "name" kvs).bind asStr,
        (List.lookup "email" kvs).bind asStr,
        (List.lookup "summary" kvs).bind asStr,
        (List.lookup "skills" kvs).bind asStrList,
        (List.lookup "experience" kvs).bind asExpList with
  | some n, some e, some s, some sk, some ex => some ⟨n, e, s, sk, ex⟩
  | _, _, _, _, _ => none

/-- Validation that `OptimizationReport(**payload)` would perform: three
required fields of the declared types, and nothing else — in particular no
range check on `match_score`, since the model declares none. -/
def validateOptimizationReport (kvs : List (String × Json)) : Option OptimizationReport :=
  match (List.lookup "match_score" kvs).bind asInt,
        (List.lookup "keyword_gaps" kvs).bind asStrList,
        (List.lookup "suggestions" kvs).bind asStrList with
  | some ms, some kg, some sg => some ⟨ms, kg, sg⟩
  | _, _, _ => none

/-- Function `parse_resume_to_json` (app.py lines 150-161): with no client the
function warns and returns `None`; otherwise the generative call plus
`json.loads` either raise (caught by the `except`, returning `None`) or
yield a payload that is validated by `ResumeProfile(**payload)`, whose
`ValidationError` is caught by the same `except` and becomes `None`. -/
def parse_resume_to_json (clientOk : Bool) (response : Except String Json) :
    Option ResumeProfile :=
  match clientOk with
  | false => none
  | true =>
    match response with
    | .error _ => none
    | .ok (.obj kvs) => validateResumeProfile kvs
    | .ok _ => none

/-- Function `generate_optimization_report` (app.py lines 173-181): with no client it
returns `None`; otherwise it returns `json.loads(response.text)` UNVALIDATED
— the `OptimizationReport` schema is only sent to the model as a response
format hint, never applied to the returned dict. Errors raised inside the
`try` become `None`. -/
def generate_optimization_report (clientOk : Bool) (response : Except String Json) :
    Option Json :=
  match clientOk with
  | false => none
  | true =>
    match response with
    | .error _ => none
    | .ok j => some j

/-- Score extraction in the `analyze_profile_button` handler (app.py line
339): `optimization_result.get("match_score", 0)` — a missing key is
silently replaced by the default `0`. -/
def analyze_handler_score (result : List (String × Json)) : Json :=
  (List.lookup "match_score" result).getD (Json.int 0)

/-- Gap extraction in the `analyze_profile_button` handler (app.py line
340): `optimization_result.get("keyword_gaps", ["N/A"])`. -/
def analyze_handler_gaps (result : List (String × Json)) : Json :=
  (List.lookup "keyword_gaps" result).getD (Json.arr [Json.str "N/A"])

/-- Suggestion extraction in the `analyze_profile_button` handler (app.py
line 341): `optimization_result.get("suggestions", ["N/A"])`. -/
def analyze_handler_suggestions (result : List (String × Json)) : Json :=
  (List.lookup "suggestions" result).getD (Json.arr [Json.str "N/A"])

/-- JSON object for a well-typed profile payload: all five required fields
present with values of the declared types. -/
def profilePayload (n em s : String) (sk : List String) (exps : List Json) :
    List (String × Json) :=
  [("name", Json.str n), ("email", Json.str em), ("summary", Json.str s),
   ("skills", Json.arr (sk.map Json.str)), ("experience", Json.arr exps)]

/-- JSON object faithfully encoding one work-experience record. -/
def expToJson (e : WorkExperience) : Json :=
  Json.obj [("title", Json.str e.title), ("company", Json.str e.company),
            ("years", Json.str e.years), ("summary", Json.str e.summary)]

/-- Well-typed optimization payload: the three declared fields with values
of the declared types, `match_score` being an arbitrary integer. -/
def optPayload (ms : Int) (kg sg : List String) : List (String × Json) :=
  [("match_score", Json.int ms),
   ("keyword_gaps", Json.arr (kg.map Json.str)),
   ("suggestions", Json.arr (sg.map Json.str))]

/-- Extracted profile payload that is well typed but lacks the required
field `email`. -/
def demoMissingEmail : List (String × Json) :=
  [("name", Json.str "Alice Smith"),
   ("summary", Json.str "Engineer."),
   ("skills", Json.arr []),
   ("experience", Json.arr [])]

/-- Extracted optimization payload lacking the required field `match_score`. -/
def optMissingScore : List (String × Json) :=
  [("keyword_gaps", Json.arr [Json.str "Go"]),
   ("suggestions", Json.arr [Json.str "Learn Go"])]

/-- State threaded through a document renderer: the profile object the
renderer reads from, and the text fragments appended to the document so
far.  Each `emitP` models placing one paragraph (or run) of text into the
output byte stream. -/
structure RenderState where
  profile : ResumeProfile
  out : List String

/-- Append one fragment of text to the document under construction. -/
def emitP (s : RenderState) (t : String) : RenderState :=
  { s with out := s.out ++ [t] }

/-- Per-experience body of the loop in `generate_pdf_v2` (app.py lines
107-114): a title/company paragraph with inline bold markup, the years
paragraph, then one bullet per non-blank line of the summary after the
middle-dot characters are removed and the text stripped. -/
def pdfExperienceSteps (s : RenderState) (exp : WorkExperience) : RenderState :=
  let s1 := emitP s ("<b>" ++ exp.title ++ "</b> at " ++ exp.company)
  let s2 := emitP s1 exp.years
  let clean_summary := pyStrip (pyRemoveChar '·' exp.summary)
  let bullet_items := ((pySplitNl clean_summary).map pyStrip).filter (fun l => l != "")
  bullet_items.foldl emitP s2

/-- Text content placed into the PDF by `generate_pdf_v2` (app.py lines
85-117), in document order: uppercased name, email, section headings,
stripped summary, the joined skills line, and the experience entries. -/
def generate_pdf_v2_run (p : ResumeProfile) : RenderState :=
  let s0 : RenderState := { profile := p, out := [] }
  let s1 := emitP s0 (pyUpper s0.profile.name)
  let s2 := emitP s1 s1.profile.email
  let s3 := emitP s2 "SUMMARY"
  let s4 := emitP s3 (pyStrip s3.profile.summary)
  let s5 := emitP s4 "KEY SKILLS"
  let s6 := emitP s5 ("Skills: " ++ String.intercalate ", " s5.profile.skills)
  let s7 := emitP s6 "WORK EXPERIENCE"
  s7.profile.experience.foldl pdfExperienceSteps s7

/-- Per-experience body of the loop in `generate_docx_v2` (app.py lines
135-142): a single paragraph holding the bold title run and the italic
company/years run, then one bullet paragraph per non-blank stripped line
of the summary. -/
def docxExperienceSteps (s : RenderState) (exp : WorkExperience) : RenderState :=
  let s1 := emitP s (exp.title ++ " | " ++ exp.company ++ " (" ++ exp.years ++ ")")
  (((pySplitNl exp.summary).map pyStrip).filter (fun l => l != "")).foldl emitP s1

/-- Text content placed into the DOCX by `generate_docx_v2` (app.py lines
119-147), in document order; the horizontal rule is fifty em-dashes. -/
def generate_docx_v2_run (p : ResumeProfile) : RenderState :=
  let s0 : RenderState := { profile := p, out := [] }
  let s1 := emitP s0 (pyUpper s0.profile.name)
  let s2 := emitP s1 s1.profile.email
  let s3 := emitP s2 (String.join (List.replicate 50 "—"))
  let s4 := emitP s3 "SUMMARY"
  let s5 := emitP s4 (pyStrip s4.profile.summary)
  let s6 := emitP s5 "KEY SKILLS"
  let s7 := emitP s6 (String.intercalate ", " s6.profile.skills)
  let s8 := emitP s7 "EXPERIENCE"
  s8.profile.experience.foldl docxExperienceSteps s8

/-- Decoded text of the PDF byte stream: the emitted fragments in order. -/
def pdfDecodedText (p : ResumeProfile) : String :=
  String.intercalate "\n" (generate_pdf_v2_run p).out

/-- Decoded text of the DOCX byte stream: the emitted fragments in order. -/
def docxDecodedText (p : ResumeProfile) : String :=
  String.intercalate "\n" (generate_docx_v2_run p).out

/-- Experience entry of the end-to-end scenario of the spec (section 8). -/
def aliceExperience : WorkExperience :=
  { title := "Software Engineer", company := "Acme", years := "2015 - 2025",
    summary := "built distributed systems" }

/-- Validated profile record of the end-to-end scenario: name Alice Smith,
one experience at company Acme. -/
def aliceProfile : ResumeProfile :=
  { name := "Alice Smith", email := "alice@x.com",
    summary := "Ten years building distributed systems.",
    skills := ["Python", "SQL"], experience := [aliceExperience] }

/-- Supabase client handle as built by `create_client(url, key)`
(db_interface.py line 20); the module-level `supabase` variable is `None`
when the credentials are missing, modelled as `Option Client`. -/
structure Client where
  url : String
  serviceKey : String

/-- In-memory per-session records held by the calling flow (app.py session
state): the parsed profile and the interview chat history. -/
structure SessionState where
  parsed_profile : Option ResumeProfile
  chat_history : List String

/-- Function `save_user_profile` (db_interface.py lines 31-36): returns
`False` immediately when the client is unconfigured, otherwise prints and
returns `True`; the session state is threaded through untouched because the
body never writes to it. -/
def save_user_profile (supabase : Option Client) (user_id : String)
    (profile_json : List (String × Json)) (session : SessionState) :
    Bool × SessionState :=
  match supabase with
  | none => (false, session)
  | some _ => (true, session)

/-- Function `save_user_alert_preferences` (db_interface.py lines 38-43):
same shape as `save_user_profile`. -/
def save_user_alert_preferences (supabase : Option Client) (user_id : String)
    (keywords : String) (frequency : String) (session : SessionState) :
    Bool × SessionState :=
  match supabase with
  | none => (false, session)
  | some _ => (true, session)

/-- Python `str()` of a JSON value as interpolated into the email f-string;
list and dictionary values are abbreviated since the exact Python repr of
nested values never matters to the send/return contract proved here. -/
def jshow : Json → String
  | .str s => s
  | .int n => toString n
  | .arr _ => "[list]"
  | .obj _ => "\x7bdict\x7d"

/-- One job block of `format_jobs_for_email` (alert_sender.py lines 15-23):
the f-string indexes `job['title']`, `job['company_name']`,
`job['match_score']`, `job['perfect_fit_reason']` and `job['source_url']`,
raising `KeyError` (modelled as `none`) when a key is absent. -/
def format_job_entry (job : List (String × Json)) : Option String := do
  let t ← List.lookup "title" job
  let c ← List.lookup "company_name" job
  let m ← List.lookup "match_score" job
  let r ← List.lookup "perfect_fit_reason" job
  let u ← List.lookup "source_url" job
  pure ("<div><h3>" ++ jshow t ++ " at " ++ jshow c ++ "</h3>" ++
        "<p>Match Score: " ++ jshow m ++ "%</p>" ++
        "<p><b>Why It\x27s a Fit:</b> " ++ jshow r ++ "</p>" ++
        "<p><a href=\"" ++ jshow u ++ "\">Apply Now</a></p></div>")

/-- Function `format_jobs_for_email` (alert_sender.py lines 10-24): header
plus one block per job, failing if any job dictionary lacks a key. -/
def format_jobs_for_email (top_jobs : List (List (String × Json))) : Option String :=
  (top_jobs.mapM format_job_entry).map
    (fun blocks => "<h2>Your Personalized Job Alerts Are Ready!</h2>" ++ String.join blocks)

/-- Function `send_job_alert_email` (alert_sender.py lines 26-51): with no
API key it prints and returns `False`; otherwise the whole body runs inside
`try/except`, so a `KeyError` while formatting or an error raised by the
Resend call (`sendResult = Except.error`) is caught and yields `False`;
only a completed send returns `True`.  Being a total Lean function, it can
never propagate an exception. -/
def send_job_alert_email (apiKey : Option String) (recipient_email : String)
    (top_jobs : List (List (String × Json))) (sendResult : Except String Unit) : Bool :=
  match apiKey with
  | none => false
  | some _ =>
    match format_jobs_for_email top_jobs with
    | none => false
    | some _ =>
      match sendResult with
      | .error _ => false
      | .ok _ => true

theorem validateList_asStr (l : List String) :
    validateList asStr (l.map Json.str) = some l := by
  induction l with
  | nil => rfl
  | cons a t ih => simp [validateList, asStr, ih]

theorem asExp_expToJson (e : WorkExperience) : asExp (expToJson e) = some e := rfl

theorem validateList_expToJson (l : List WorkExperience) :
    validateList asExp (l.map expToJson) = some l := by
  induction l with
  | nil => rfl
  | cons a t ih => simp [validateList, asExp_expToJson, ih]

theorem validateResumeProfile_wellTyped (n em s : String) (sk : List String)
    (exps : List WorkExperience) :
    validateResumeProfile (profilePayload n em s sk (exps.map expToJson)) =
      some ⟨n, em, s, sk, exps⟩ := by
  have h1 : (List.lookup "skills" (profilePayload n em s sk (exps.map expToJson))).bind
      asStrList = validateList asStr (sk.map Json.str) := rfl
  have h2 : (List.lookup "experience" (profilePayload n em s sk (exps.map expToJson))).bind
      asExpList = validateList asExp (exps.map expToJson) := rfl
  unfold validateResumeProfile
  rw [h1, h2, validateList_asStr, validateList_expToJson]
  rfl

theorem foldl_emitP_profile (l : List String) (s : RenderState) :
    (l.foldl emitP s).profile = s.profile := by
  induction l generalizing s with
  | nil => rfl
  | cons a t ih => exact ih (emitP s a)

theorem pdfExperienceSteps_profile (s : RenderState) (e : WorkExperience) :
    (pdfExperienceSteps s e).profile = s.profile := by
  unfold pdfExperienceSteps
  exact foldl_emitP_profile _ _

theorem foldl_pdfExperienceSteps_profile (l : List WorkExperience) (s : RenderState) :
    (l.foldl pdfExperienceSteps s).profile = s.profile := by
  induction l generalizing s with
  | nil => rfl
  | cons a t ih => exact (ih (pdfExperienceSteps s a)).trans (pdfExperienceSteps_profile s a)

theorem docxExperienceSteps_profile (s : RenderState) (e : WorkExperience) :
    (docxExperienceSteps s e).profile = s.profile := by
  unfold docxExperienceSteps
  exact foldl_emitP_profile _ _

theorem foldl_docxExperienceSteps_profile (l : List WorkExperience) (s : RenderState) :
    (l.foldl docxExperienceSteps s).profile = s.profile := by
  induction l generalizing s with
  | nil => rfl
  | cons a t ih => exact (ih (docxExperienceSteps s a)).trans (docxExperienceSteps_profile s a)

/-- Claim C1 counterexample: a payload with `match_score = -1` (and
likewise `101`) is NOT a validation failure — `OptimizationReport`
declares no bound, so pydantic validation succeeds and preserves the
value, and `generate_optimization_report` even returns the raw dict
without validating, after which the handler reads the out-of-range score
verbatim. -/
theorem match_score_out_of_range_validates :
    validateOptimizationReport (optPayload (-1) ["Kubernetes"] ["Add metrics"]) =
      some ⟨-1, ["Kubernetes"], ["Add metrics"]⟩ ∧
    validateOptimizationReport (optPayload 101 ["Kubernetes"] ["Add metrics"]) =
      some ⟨101, ["Kubernetes"], ["Add metrics"]⟩ ∧
    generate_optimization_report true
        (Except.ok (Json.obj (optPayload (-1) ["Kubernetes"] ["Add metrics"]))) =
      some (Json.obj (optPayload (-1) ["Kubernetes"] ["Add metrics"])) ∧
    analyze_handler_score (optPayload (-1) ["Kubernetes"] ["Add metrics"]) =
      Json.int (-1) :=
  ⟨rfl, rfl, rfl, rfl⟩

/-- Claim C1 (amended): the 0-100 bound on `match_score` is not enforced
anywhere — every integer value, in range or not, validates successfully
against the `OptimizationReport` schema with the value preserved
unclamped, and the report path returns the extracted payload to its
consumer without applying the schema at all. -/
theorem optimization_validation_unbounded (ms : Int) (kg sg : List String) (j : Json) :
    validateOptimizationReport (optPayload ms kg sg) = some ⟨ms, kg, sg⟩ ∧
    generate_optimization_report true (Except.ok j) = some j := by
  refine ⟨?_, rfl⟩
  have h1 : (List.lookup "keyword_gaps" (optPayload ms kg sg)).bind asStrList =
      validateList asStr (kg.map Json.str) := rfl
  have h2 : (List.lookup "suggestions" (optPayload ms kg sg)).bind asStrList =
      validateList asStr (sg.map Json.str) := rfl
  unfold validateOptimizationReport
  rw [h1, h2, validateList_asStr kg, validateList_asStr sg]
  rfl

/-- Claim C2 counterexample: a payload missing the required field
`match_score` is returned to its consumer anyway — the optimization path
performs no schema validation, and the display handler silently replaces
the missing field with the default `0`. -/
theorem optimization_missing_field_passes_through :
    generate_optimization_report true (Except.ok (Json.obj optMissingScore)) =
      some (Json.obj optMissingScore) ∧
    analyze_handler_score optMissingScore = Json.int 0 ∧
    analyze_handler_gaps optMissingScore = Json.arr [Json.str "Go"] :=
  ⟨rfl, rfl, rfl⟩

/-- Claim C2 (amended): for every extracted payload missing a required
field of the Profile schema, validation fails and no Profile record is
returned to any consumer; the optimization payload, by contrast, is not
validated against its schema — it reaches the consumer raw, and the
handler substitutes the default `0` for a missing `match_score`. -/
theorem missing_required_field_rejected (kvs : List (String × Json))
    (h : List.lookup "name" kvs = none ∨ List.lookup "email" kvs = none ∨
         List.lookup "summary" kvs = none ∨ List.lookup "skills" kvs = none ∨
         List.lookup "experience" kvs = none) :
    (validateResumeProfile kvs = none ∧
      ∀ c, parse_resume_to_json c (Except.ok (Json.obj kvs)) = none) ∧
    (∀ r, List.lookup "match_score" r = none → analyze_handler_score r = Json.int 0) := by
  have hv : validateResumeProfile kvs = none := by
    unfold validateResumeProfile
    rcases h with h | h | h | h | h <;> rw [h]
    · rfl
    · cases (List.lookup "name" kvs).bind asStr <;> rfl
    · cases (List.lookup "name" kvs).bind asStr <;>
        cases (List.lookup "email" kvs).bind asStr <;> rfl
    · cases (List.lookup "name" kvs).bind asStr <;>
        cases (List.lookup "email" kvs).bind asStr <;>
        cases (List.lookup "summary" kvs).bind asStr <;> rfl
    · cases (List.lookup "name" kvs).bind asStr <;>
        cases (List.lookup "email" kvs).bind asStr <;>
        cases (List.lookup "summary" kvs).bind asStr <;>
        cases (List.lookup "skills" kvs).bind asStrList <;> rfl
  refine ⟨⟨hv, ?_⟩, ?_⟩
  · intro c
    cases c
    · rfl
    · simpa [parse_resume_to_json] using hv
  · intro r hr
    simp [analyze_handler_score, hr]

/-- Claim C2 witness: the concrete payload lacking `email` is rejected by
Profile validation and yields no record from `parse_resume_to_json`. -/
theorem missing_required_field_rejected_witness :
    (validateResumeProfile demoMissingEmail = none ∧
      ∀ c, parse_resume_to_json c (Except.ok (Json.obj demoMissingEmail)) = none) ∧
    (∀ r, List.lookup "match_score" r = none → analyze_handler_score r = Json.int 0) :=
  missing_required_field_rejected demoMissingEmail (Or.inr (Or.inl rfl))

/-- Claim C3 counterexample: both renderers uppercase the name
(`profile.name.upper()`), so the decoded text of neither export contains
the substring "Alice Smith" for the end-to-end scenario profile. -/
theorem render_name_uppercased_cex :
    strContains (pdfDecodedText aliceProfile) "Alice Smith" = false ∧
    strContains (docxDecodedText aliceProfile) "Alice Smith" = false :=
  ⟨rfl, rfl⟩

/-- Claim C3 (amended): for the end-to-end scenario profile, the decoded
text of both export formats contains the substrings "ALICE SMITH" (the
name, uppercased by both renderers) and "Acme". -/
theorem render_contains_upper_name_and_company :
    strContains (pdfDecodedText aliceProfile) "ALICE SMITH" = true ∧
    strContains (pdfDecodedText aliceProfile) "Acme" = true ∧
    strContains (docxDecodedText aliceProfile) "ALICE SMITH" = true ∧
    strContains (docxDecodedText aliceProfile) "Acme" = true :=
  ⟨rfl, rfl, rfl, rfl⟩

/-- Claim C4: whenever the external generative call raises (or its
response fails to decode), `parse_resume_to_json` returns no record at
all — the `except` branch yields `None`, never a partial profile. -/
theorem extraction_error_yields_no_record (clientOk : Bool) (e : String) :
    parse_resume_to_json clientOk (Except.error e) = none := by
  cases clientOk <;> rfl

/-- Claim C5: a well-typed profile payload whose `skills` list has exactly
three entries — below the advisory 8-12 range — validates successfully;
the cardinality range lives only in the field description handed to the
extractor and is never checked. -/
theorem skills_length_three_validates (n em s s1 s2 s3 : String)
    (exps : List WorkExperience) :
    validateResumeProfile (profilePayload n em s [s1, s2, s3] (exps.map expToJson)) =
      some ⟨n, em, s, [s1, s2, s3], exps⟩ :=
  validateResumeProfile_wellTyped n em s [s1, s2, s3] exps

/-- Claim C6: with the persistence client unconfigured (`supabase = None`),
both save functions return `False` for every input without raising, and
the session state they were given back comes out unchanged. -/
theorem saves_unconfigured_return_false (uid : String) (pj : List (String × Json))
    (kw freq : String) (session : SessionState) :
    save_user_profile none uid pj session = (false, session) ∧
    save_user_alert_preferences none uid kw freq session = (false, session) :=
  ⟨rfl, rfl⟩

/-- Claim C7: `send_job_alert_email` always returns a boolean (it is a
total function, so no exception can propagate); a missing API key returns
`False` before any work, and an error raised by the underlying Resend
call is caught and also yields `False`. -/
theorem send_job_alert_never_raises (recipient : String)
    (jobs : List (List (String × Json))) :
    (∀ res, send_job_alert_email none recipient jobs res = false) ∧
    (∀ k e, send_job_alert_email (some k) recipient jobs (Except.error e) = false) := by
  constructor
  · intro res; rfl
  · intro k e
    unfold send_job_alert_email
    cases format_jobs_for_email jobs <;> rfl

/-- Claim C8: both document renderers leave their input profile unchanged
— the profile object coming out of the render state equals the input,
field for field. -/
theorem render_preserves_profile (p : ResumeProfile) :
    (generate_pdf_v2_run p).profile = p ∧ (generate_docx_v2_run p).profile = p := by
  constructor
  · unfold generate_pdf_v2_run
    exact foldl_pdfExperienceSteps_profile _ _
  · unfold generate_docx_v2_run
    exact foldl_docxExperienceSteps_profile _ _

/-- Claim C9: a payload whose `skills` field is present and equal to the
empty list, with all other required fields present, validates successfully
and the resulting record has `skills = []` — required-ness of a list field
does not enforce non-emptiness. -/
theorem empty_skills_validates (n em s : String) (exps : List WorkExperience) :
    validateResumeProfile (profilePayload n em s [] (exps.map expToJson)) =
      some ⟨n, em, s, [], exps⟩ :=
  validateResumeProfile_wellTyped n em s [] exps

/-- Claim C10: the boolean returned by each save function equals
`supabase.isSome` for every choice of arguments and session state, so any
two calls under the same configuration return the same boolean — `True`
when the client is initialized, `False` otherwise. -/
theorem save_result_depends_only_on_config (sb : Option Client)
    (u1 u2 : String) (p1 : List (String × Json)) (kw freq : String)
    (s1 s2 : SessionState) :
    (save_user_profile sb u1 p1 s1).1 = sb.isSome ∧
    (save_user_alert_preferences sb u2 kw freq s2).1 = sb.isSome := by
  cases sb <;> exact ⟨rfl, rfl⟩
